import Mathlib

/-!
# Verification of the Antariks Clipper highlight and orchestration core

A shallow embedding, in Lean 4, of the highlight-generation algorithm
(`backend/services/highlight.py`), the render handlers
(`backend/handlers_renders.py`), the render/job processors
(`backend/services/jobs.py`) and the job retry handler
(`backend/handlers_jobs.py`) of the Antariks Clipper repository,
together with theorems checking the natural-language specification
against that code.

Modelling conventions:
* Python floats are modelled as rationals (`ℚ`); every comparison and
  every arithmetic step the claims depend on is exact at the inputs used.
* Text is modelled as `List Char`; Python `str.lower()` becomes
  `Char.toLower` mapped over the list, `kw in text` becomes substring
  search, and `re.findall(r'\b\w+\b', t)` becomes the list of maximal
  runs of word characters.
* Fallible handlers return the (possibly unchanged) state together with
  an `Except` outcome; a Python `raise` before any database write is
  modelled by returning the input state with an `Except.error`.
-/

namespace Clipper

/-! ## Configuration constants (`backend/config.py`, default values) -/

/-- `MIN_CLIP_DURATION` (default `15`). -/
def MIN_CLIP_DURATION : ℚ := 15

/-- `MAX_CLIP_DURATION` (default `60`). -/
def MAX_CLIP_DURATION : ℚ := 60

/-- `DEFAULT_CLIP_COUNT` (default `12`). -/
def DEFAULT_CLIP_COUNT : ℤ := 12

/-! ## Candidate scoring (`score_segment` and helpers in
`backend/services/highlight.py`) -/

/-- The four keyword categories of `HOOK_KEYWORDS`. -/
inductive Category where
  | importance
  | revelation
  | summary
  | teaching
deriving DecidableEq, Inhabited

/-- `HOOK_KEYWORDS['importance']`. -/
def importanceKeywords : List (List Char) :=
  ["ini penting".toList, "yang penting".toList, "kuncinya".toList,
   "serius".toList, "harus tahu".toList, "important".toList,
   "must know".toList, "critical".toList, "essential".toList,
   "crucial".toList]

/-- `HOOK_KEYWORDS['revelation']`. -/
def revelationKeywords : List (List Char) :=
  ["gila".toList, "ternyata".toList, "rahasia".toList, "trik".toList,
   "tips".toList, "cara terbaik".toList, "secret".toList,
   "amazing".toList, "incredible".toList, "shocking".toList,
   "revelation".toList, "turns out".toList]

/-- `HOOK_KEYWORDS['summary']`. -/
def summaryKeywords : List (List Char) :=
  ["jadi intinya".toList, "kesimpulannya".toList, "yang paling".toList,
   "pokoknya".toList, "in conclusion".toList, "to summarize".toList,
   "the point is".toList, "basically".toList]

/-- `HOOK_KEYWORDS['teaching']`. -/
def teachingKeywords : List (List Char) :=
  ["cara".toList, "bagaimana".toList, "tutorial".toList,
   "langkah".toList, "pro tip".toList, "how to".toList,
   "step by step".toList, "game changer".toList, "breakthrough".toList]

/-- The word alternatives of the first two `QUESTION_PATTERNS`
(`\b(apa|kenapa|mengapa|bagaimana|kapan|dimana|siapa)\b` and
`\b(what|why|how|when|where|who)\b`). -/
def questionWords : List (List Char) :=
  ["apa".toList, "kenapa".toList, "mengapa".toList, "bagaimana".toList,
   "kapan".toList, "dimana".toList, "siapa".toList, "what".toList,
   "why".toList, "how".toList, "when".toList, "where".toList,
   "who".toList]

/-- Python `needle in hay` on strings: `needle` occurs as a contiguous
sublist of `hay`. -/
def isSubList (needle : List Char) : List Char → Bool
  | [] => needle.isEmpty
  | c :: rest => needle.isPrefixOf (c :: rest) || isSubList needle rest

/-- A character matched by Python `\w` (ASCII fragment): letters, digits
or underscore. -/
def isWordChar (c : Char) : Bool := c.isAlphanum || c == '_'

/-- Helper for `wordsOf`: accumulates the current run of word characters
(in reverse). -/
def wordsAux : List Char → List Char → List (List Char)
  | [], acc => if acc.isEmpty then [] else [acc.reverse]
  | c :: cs, acc =>
    if isWordChar c then wordsAux cs (c :: acc)
    else if acc.isEmpty then wordsAux cs []
    else acc.reverse :: wordsAux cs []

/-- `re.findall(r'\b\w+\b', t)`: the maximal runs of word characters. -/
def wordsOf (t : List Char) : List (List Char) := wordsAux t []

/-- Python `text.lower()` (ASCII fragment). -/
def toLowerList (t : List Char) : List Char := t.map Char.toLower

/-- `detect_keyword_categories`, restricted to one category: the number
of keywords of the category contained in the lowercased text. -/
def categoryMatches (keywords : List (List Char)) (textLower : List Char) : ℕ :=
  (keywords.filter (fun kw => isSubList kw textLower)).length

/-- The contribution of one category to the keyword score:
`min(count * weight, weight * 2)` when the category is present, else
nothing (absent categories are not in the `detect_keyword_categories`
dict). -/
def categoryContribution (keywords : List (List Char)) (weight : ℚ)
    (textLower : List Char) : ℚ :=
  let m := categoryMatches keywords textLower
  if 0 < m then min ((m : ℚ) * weight) (weight * 2) else 0

/-- Component 1 of `score_segment`: hook keywords with category
weighting, `min(keyword_score, 35)`.  Weights: importance 10,
revelation 9, summary 8, teaching 7. -/
def keywordPoints (textLower : List Char) : ℚ :=
  min (categoryContribution importanceKeywords 10 textLower +
       categoryContribution revelationKeywords 9 textLower +
       categoryContribution summaryKeywords 8 textLower +
       categoryContribution teachingKeywords 7 textLower) 35

/-- `QUESTION_PATTERNS` test: one of the interrogative words occurs as a
whole word, or the text contains a question mark. -/
def hasQuestionText (textLower : List Char) : Bool :=
  questionWords.any (fun q => (wordsOf textLower).contains q) ||
    textLower.contains '?'

/-- The word-count "sweet spot" bonus of `score_segment`. -/
def wordCountBonus (wordCount : ℕ) : ℚ :=
  if 50 ≤ wordCount ∧ wordCount ≤ 150 then 5
  else if 30 ≤ wordCount ∧ wordCount ≤ 200 then 3
  else 0

/-- Component 2 of `score_segment`: content quality (vocabulary
diversity, word-count bonus, question bonus). -/
def contentPoints (textLower : List Char) : ℚ :=
  let ws := wordsOf textLower
  (if ws.length ≠ 0 then
      ((ws.dedup.length : ℚ) / (ws.length : ℚ)) * 15 + wordCountBonus ws.length
   else 0) +
  (if hasQuestionText textLower then 5 else 0)

/-- Component 3 of `score_segment`: duration fit (tiered bonus). -/
def durationPoints (clipDuration : ℚ) : ℚ :=
  if MIN_CLIP_DURATION ≤ clipDuration ∧ clipDuration ≤ MAX_CLIP_DURATION then
    if 20 ≤ clipDuration ∧ clipDuration ≤ 45 then 25
    else if 15 ≤ clipDuration ∧ clipDuration ≤ 60 then 20
    else 15
  else 0

/-- Component 4 of `score_segment`: position bonus, from
`position_ratio = segment_index / total_segments`. -/
def positionPoints (segmentIndex totalSegments : ℕ) : ℚ :=
  if 0 < totalSegments then
    let ratio : ℚ := (segmentIndex : ℚ) / (totalSegments : ℚ)
    if ratio < 15 / 100 ∨ ratio > 85 / 100 then 10
    else if 40 / 100 ≤ ratio ∧ ratio ≤ 60 / 100 then 8
    else 5
  else 0

/-- The metadata record returned by `score_segment`. -/
structure ScoreMeta where
  categories : List Category
  hasQuestionFlag : Bool
  wordCount : ℕ
  uniqueWordRatio : ℚ
deriving DecidableEq, Inhabited

/-- The category list of the metadata (`list(keyword_categories.keys())`,
in dict insertion order). -/
def detectedCategories (textLower : List Char) : List Category :=
  (if 0 < categoryMatches importanceKeywords textLower then [Category.importance] else []) ++
  (if 0 < categoryMatches revelationKeywords textLower then [Category.revelation] else []) ++
  (if 0 < categoryMatches summaryKeywords textLower then [Category.summary] else []) ++
  (if 0 < categoryMatches teachingKeywords textLower then [Category.teaching] else [])

/-- `score_segment(text, start, end, total_duration, segment_index,
total_segments)`.  The score is the sum of the four components; the
`total_duration` argument is accepted but, as in the source, unused. -/
def score_segment (text : List Char) (start stop totalDuration : ℚ)
    (segmentIndex totalSegments : ℕ) : ℚ × ScoreMeta :=
  let textLower := toLowerList text
  let clipDuration := stop - start
  let ws := wordsOf textLower
  let _ := totalDuration
  (keywordPoints textLower + contentPoints textLower +
     durationPoints clipDuration + positionPoints segmentIndex totalSegments,
   { categories := detectedCategories textLower
     hasQuestionFlag := hasQuestionText textLower
     wordCount := ws.length
     uniqueWordRatio :=
       if ws.length ≠ 0 then (ws.dedup.length : ℚ) / (ws.length : ℚ) else 0 })

/-! ## Candidate generation (`generate_candidates`) -/

/-- A transcript segment (`{start, end, text}`); the Python `end` field
is called `stop` here because `end` is a Lean keyword. -/
structure Seg where
  start : ℚ
  stop : ℚ
  text : List Char
deriving DecidableEq, Inhabited

/-- A candidate / highlight dict as built by `generate_candidates`
(`{start, end, duration, score, text, metadata, segment_count}`); the
Python `end` field is called `stop`. -/
structure Cand where
  start : ℚ
  stop : ℚ
  duration : ℚ
  score : ℚ
  text : List Char
  metadata : ScoreMeta
  segmentCount : ℕ
deriving DecidableEq, Inhabited

/-- `' '.join(seg['text'] for seg in segments[i:j])`. -/
def joinTexts (segs : List Seg) (i j : ℕ) : List Char :=
  List.intercalate [' '] (((segs.drop i).take (j - i)).map Seg.text)

/-- The inner `for j in range(i + 1, max_j)` loop of
`generate_candidates`, over the list of remaining values of `j`.
`continue` on `duration < MIN_CLIP_DURATION`, `break` on
`duration > MAX_CLIP_DURATION`, otherwise emit a candidate. -/
def innerCandidates (segs : List Seg) (n : ℕ) (totalDuration : ℚ)
    (i : ℕ) : List ℕ → List Cand
  | [] => []
  | j :: js =>
    let start := (segs.getD i default).start
    let stop := (segs.getD (j - 1) default).stop
    let duration := stop - start
    if duration < MIN_CLIP_DURATION then
      innerCandidates segs n totalDuration i js
    else if duration > MAX_CLIP_DURATION then []
    else
      let text := joinTexts segs i j
      let sm := score_segment text start stop totalDuration i n
      { start := start, stop := stop, duration := duration,
        score := sm.1, text := text, metadata := sm.2,
        segmentCount := j - i } :: innerCandidates segs n totalDuration i js

/-- The outer `while i < total_segments` loop of `generate_candidates`.
`i` advances by `stepSize ≥ 1` each iteration, so `n` iterations of
fuel always suffice; the fuel case is never hit before `i ≥ n`. -/
def outerCandidates (segs : List Seg) (n : ℕ) (totalDuration : ℚ)
    (stepSize : ℕ) : ℕ → ℕ → List Cand
  | 0, _ => []
  | fuel + 1, i =>
    if i < n then
      let maxJ := min (i + 150) (n + 1)
      innerCandidates segs n totalDuration i
          (List.range' (i + 1) (maxJ - (i + 1))) ++
        outerCandidates segs n totalDuration stepSize fuel (i + stepSize)
    else []

/-- `generate_candidates(segments, total_duration, adaptive_step)`. -/
def generate_candidates (segs : List Seg) (totalDuration : ℚ)
    (adaptiveStep : Bool) : List Cand :=
  let n := segs.length
  let stepSize : ℕ :=
    if totalDuration > 3600 ∧ adaptiveStep = true then 3 else 1
  outerCandidates segs n totalDuration stepSize n 0

/-! ## Overlap resolution (`remove_overlaps`) -/

/-- The per-pair overlap test of `remove_overlaps`: a candidate
conflicts with an already-selected clip unless it ends before the
selected clip starts (with the `min_gap` buffer) or starts after the
selected clip ends (no buffer on that side). -/
def overlapsWith (minGap : ℚ) (c sel : Cand) : Bool :=
  !(c.stop ≤ sel.start - minGap || c.start ≥ sel.stop)

/-- `any(...)` over the already-selected clips. -/
def overlapsAny (minGap : ℚ) (c : Cand) (selected : List Cand) : Bool :=
  selected.any (overlapsWith minGap c)

/-- The selection loop of `remove_overlaps`: iterate over the
score-sorted candidates, append each non-conflicting one, and stop as
soon as `top_n` are selected.  `top_n` is an `ℤ` because the Python
parameter is an unrestricted `int`. -/
def selectGo (minGap : ℚ) (topN : ℤ) : List Cand → List Cand → List Cand
  | [], selected => selected
  | c :: rest, selected =>
    if overlapsAny minGap c selected then selectGo minGap topN rest selected
    else
      let selected' := selected ++ [c]
      if topN ≤ (selected'.length : ℤ) then selected'
      else selectGo minGap topN rest selected'

/-- `sorted(candidates, key=lambda x: x['score'], reverse=True)` —
Python's sort is stable, and so is `List.insertionSort` with this
total preorder. -/
def sortByScoreDesc (l : List Cand) : List Cand :=
  List.insertionSort (fun a b => b.score ≤ a.score) l

/-- `sorted(selected, key=lambda x: x['start'])`. -/
def sortByStart (l : List Cand) : List Cand :=
  List.insertionSort (fun a b => a.start ≤ b.start) l

/-- `remove_overlaps(candidates, top_n, min_gap)` (default
`min_gap = 10.0`). -/
def remove_overlaps (candidates : List Cand) (topN : ℤ)
    (minGap : ℚ) : List Cand :=
  sortByStart (selectGo minGap topN (sortByScoreDesc candidates) [])

/-! ## Dynamic clip count (`calculate_dynamic_clip_count`) -/

/-- Python `int()` applied to a float: truncation toward zero. -/
def pyIntTrunc (q : ℚ) : ℤ := if 0 ≤ q then ⌊q⌋ else ⌈q⌉

/-- `calculate_dynamic_clip_count(total_duration, base_count)`. -/
def calculate_dynamic_clip_count (totalDuration : ℚ)
    (baseCount : ℤ) : ℤ :=
  let durationMinutes := totalDuration / 60
  if durationMinutes ≤ 10 then max baseCount 5
  else if durationMinutes ≤ 30 then max baseCount 12
  else if durationMinutes ≤ 60 then max baseCount 20
  else if durationMinutes ≤ 120 then max baseCount 30
  else min (pyIntTrunc (durationMinutes / 3)) 50

/-! ## Render subsystem (`backend/handlers_renders.py`,
`process_render` in `backend/services/jobs.py`)

Records are keyed by numeric ids.  `MAX_CONCURRENT_RENDERS` is imported
by `handlers_renders.py` but not defined in `backend/config.py`;
modelled from the spec: the global render-concurrency cap is a
configurable constant, so it appears here as the parameter `maxConc`.
The `RenderException` messages of the handlers are modelled as the
constructors of `RenderErr`, matching the spec's error taxonomy. -/

/-- Render / job statuses. -/
inductive RStatus where
  | queued
  | processing
  | ready
  | failed
  | cancelled
deriving DecidableEq, Inhabited

/-- `status in {"queued", "processing"}`. -/
def rActive (st : RStatus) : Bool :=
  st = RStatus.queued || st = RStatus.processing

/-- A row of the `renders` table (the fields the handlers touch). -/
structure RenderRec where
  rid : ℕ
  clipId : ℕ
  status : RStatus
  progress : ℤ
  error : Option (List Char)
  outputSet : Bool
deriving DecidableEq, Inhabited

/-- A row of the `clips` table (the fields the render code reads). -/
structure ClipRec where
  cid : ℕ
  jobId : ℕ
deriving DecidableEq, Inhabited

/-- A row of the `jobs` table, as read by `process_render`:
`rawPathSet` models `job.get('raw_path')` being non-null. -/
structure JobRow where
  jid : ℕ
  rawPathSet : Bool
deriving DecidableEq, Inhabited

/-- The state of the render subsystem: database tables plus the
filesystem facts the code checks.  `rawFiles` holds the job ids whose
raw-video file exists on disk; `outFiles` holds the render ids whose
output file exists. -/
structure RSys where
  jobs : List JobRow
  clips : List ClipRec
  renders : List RenderRec
  rawFiles : List ℕ
  outFiles : List ℕ
deriving DecidableEq, Inhabited

/-- Typed errors for the render handlers (the spec's taxonomy; the
source raises `RenderException` with distinguishing messages). -/
inductive RenderErr where
  | notFound
  | concurrencyLimit
  | duplicateRender
  | invalidState
deriving DecidableEq, Inhabited

/-- `db.get_clip(clip_id)` as a lookup. -/
def findClip (s : RSys) (cid : ℕ) : Option ClipRec :=
  s.clips.find? (fun c => c.cid = cid)

/-- `db.get_job(job_id)` as a lookup. -/
def findJob (s : RSys) (jid : ℕ) : Option JobRow :=
  s.jobs.find? (fun j => j.jid = jid)

/-- `db.get_render(render_id)` as a lookup (the ready-with-missing-file
repair of `db.get_render` only turns `ready` rows into `failed` ones
and is irrelevant to the active counts studied here). -/
def findRender (s : RSys) (rid : ℕ) : Option RenderRec :=
  s.renders.find? (fun r => r.rid = rid)

/-- Number of renders with status in `{queued, processing}`
(`len(active_renders)` over `db.list_renders()`). -/
def activeCount (s : RSys) : ℕ :=
  (s.renders.filter (fun r => rActive r.status)).length

/-- Whether some render of the clip is `queued`/`processing`
(the duplicate-render guard over `db.get_renders_by_clip`). -/
def hasActiveForClip (s : RSys) (cid : ℕ) : Bool :=
  s.renders.any (fun r => r.clipId = cid && rActive r.status)

/-- `db.update_render(rid, ...)` restricted to one row. -/
def updateRender (s : RSys) (rid : ℕ) (f : RenderRec → RenderRec) : RSys :=
  { s with renders := s.renders.map (fun r => if r.rid = rid then f r else r) }

/-- `_cleanup_old_renders(clip_id)`: deletes the output files of the
clip's previous renders (records and statuses are untouched). -/
def cleanupOldRenders (s : RSys) (cid : ℕ) : RSys :=
  { s with outFiles :=
      s.outFiles.filter (fun o =>
        !(s.renders.any (fun r => r.rid = o && r.clipId = cid))) }

/-- `handle_create_render(clip_id, options)`: clip lookup, global
concurrency check, duplicate-render check, then record creation with
default status `queued`.  A raised `RenderException` is modelled as the
unchanged state plus an error outcome. -/
def createRender (maxConc : ℕ) (cid newRid : ℕ) (s : RSys) :
    RSys × Except RenderErr Unit :=
  match findClip s cid with
  | none => (s, Except.error RenderErr.notFound)
  | some _ =>
    if maxConc ≤ activeCount s then
      (s, Except.error RenderErr.concurrencyLimit)
    else if hasActiveForClip s cid then
      (s, Except.error RenderErr.duplicateRender)
    else
      let s' := cleanupOldRenders s cid
      ({ s' with renders := s'.renders ++
          [{ rid := newRid, clipId := cid, status := RStatus.queued,
             progress := 0, error := none, outputSet := false }] },
       Except.ok ())

/-- `handle_retry_render(render_id)`: only `failed` renders can be
retried; the retried render is set back to `queued` with cleared error
and progress.  No concurrency-cap or duplicate-render check is made. -/
def retryRender (rid : ℕ) (s : RSys) : RSys × Except RenderErr Unit :=
  match findRender s rid with
  | none => (s, Except.error RenderErr.notFound)
  | some r =>
    if r.status ≠ RStatus.failed then
      (s, Except.error RenderErr.invalidState)
    else
      (updateRender s rid (fun r0 =>
        { r0 with status := RStatus.queued, error := none, progress := 0 }),
       Except.ok ())

/-- One iteration of the `handle_batch_render` loop body for clip
`cid` with fresh render id `rid`: skip on missing/foreign clip, on the
concurrency limit, or on a duplicate; otherwise create the render. -/
def batchStep (maxConc : ℕ) (jid : ℕ) (cid rid : ℕ) (s : RSys) : RSys :=
  match findClip s cid with
  | none => s
  | some c =>
    if c.jobId ≠ jid then s
    else if maxConc ≤ activeCount s then s
    else if hasActiveForClip s cid then s
    else
      let s' := cleanupOldRenders s cid
      { s' with renders := s'.renders ++
          [{ rid := rid, clipId := cid, status := RStatus.queued,
             progress := 0, error := none, outputSet := false }] }

/-- The `handle_batch_render` loop over the requested clip ids (each
paired with the fresh render id the handler generates for it). -/
def batchLoop (maxConc : ℕ) (jid : ℕ) :
    List (ℕ × ℕ) → RSys → RSys
  | [], s => s
  | (cid, rid) :: rest, s =>
    batchLoop maxConc jid rest (batchStep maxConc jid cid rid s)

/-- `handle_batch_render(job_id, clip_ids, options)`. -/
def batchRender (maxConc : ℕ) (jid : ℕ) (reqs : List (ℕ × ℕ))
    (s : RSys) : RSys × Except RenderErr Unit :=
  match findJob s jid with
  | none => (s, Except.error RenderErr.notFound)
  | some _ => (batchLoop maxConc jid reqs s, Except.ok ())

/-- The check-and-start phase of `process_render(render_id)`, run by
the worker pool on a freshly queued render: a missing clip, a missing
job, an unset raw path or a missing raw file mark the render `failed`;
otherwise the render enters `processing`. -/
def procStart (rid : ℕ) (s : RSys) : RSys :=
  match findRender s rid with
  | none => s
  | some r =>
    if r.status ≠ RStatus.queued then s
    else
      match findClip s r.clipId with
      | none => updateRender s rid (fun r0 =>
          { r0 with status := RStatus.failed,
                    error := some "Clip not found".toList })
      | some c =>
        match findJob s c.jobId with
        | none => updateRender s rid (fun r0 =>
            { r0 with status := RStatus.failed,
                      error := some "Job video not found or raw_path not set".toList })
        | some j =>
          if ¬ j.rawPathSet then
            updateRender s rid (fun r0 =>
              { r0 with status := RStatus.failed,
                        error := some "Job video not found or raw_path not set".toList })
          else if ¬ j.jid ∈ s.rawFiles then
            updateRender s rid (fun r0 =>
              { r0 with status := RStatus.failed,
                        error := some "Raw video file not found".toList })
          else
            updateRender s rid (fun r0 =>
              { r0 with status := RStatus.processing, progress := 10 })

/-- The completion phase of `process_render`: a render in `processing`
ends `ready` (pre-existing output file, or successful `render_clip`
whose output file now exists) or `failed`. -/
def procEnd (rid : ℕ) (ok : Bool) (s : RSys) : RSys :=
  match findRender s rid with
  | none => s
  | some r =>
    if r.status ≠ RStatus.processing then s
    else if rid ∈ s.outFiles then
      updateRender s rid (fun r0 =>
        { r0 with status := RStatus.ready, progress := 100, outputSet := true })
    else if ok then
      { updateRender s rid (fun r0 =>
          { r0 with status := RStatus.ready, progress := 100,
                    outputSet := true }) with
        outFiles := s.outFiles ++ [rid] }
    else
      updateRender s rid (fun r0 =>
        { r0 with status := RStatus.failed,
                  error := some "Render failed".toList })

/-- One step of the render subsystem: a handler invocation or a phase
of a `process_render` execution. -/
inductive RStep (maxConc : ℕ) : RSys → RSys → Prop where
  | create (cid rid : ℕ) (s : RSys) :
      RStep maxConc s (createRender maxConc cid rid s).1
  | retry (rid : ℕ) (s : RSys) :
      RStep maxConc s (retryRender rid s).1
  | batch (jid : ℕ) (reqs : List (ℕ × ℕ)) (s : RSys) :
      RStep maxConc s (batchRender maxConc jid reqs s).1
  | start (rid : ℕ) (s : RSys) :
      RStep maxConc s (procStart rid s)
  | finish (rid : ℕ) (ok : Bool) (s : RSys) :
      RStep maxConc s (procEnd rid ok s)

/-- Reachability in the render subsystem. -/
def RReach (maxConc : ℕ) : RSys → RSys → Prop :=
  Relation.ReflTransGen (RStep maxConc)

/-- The per-clip duplicate-render invariant: no two renders of the same
clip are simultaneously `queued`/`processing`. -/
def NoDupActive (renders : List RenderRec) : Prop :=
  renders.Pairwise (fun a b =>
    ¬(a.clipId = b.clipId ∧ rActive a.status = true ∧ rActive b.status = true))

/-- Render ids are distinct (they are UUID primary keys in the
database). -/
def RidsOk (s : RSys) : Prop := (s.renders.map RenderRec.rid).Nodup

/-! ## Job orchestrator (`process_job` in `backend/services/jobs.py`)
and `handle_retry_job` (`backend/handlers_jobs.py`)

`process_job` is modelled as a pure function of the job row and an
environment capturing the filesystem/database facts it consults and the
outcomes of its external collaborators.  The list of collaborators it
actually invoked is returned alongside the final job row. -/

/-- `job['source_type']`. -/
inductive SourceType where
  | youtube
  | upload
deriving DecidableEq, Inhabited

/-- A row of the `jobs` table, as touched by `process_job` and
`handle_retry_job`. -/
structure JobRec where
  jid : ℕ
  sourceType : SourceType
  status : RStatus
  step : List Char
  progress : ℤ
  error : Option (List Char)
  rawPath : Option ℕ
deriving DecidableEq, Inhabited

/-- The external collaborators of the job orchestrator. -/
inductive Collab where
  | downloader
  | transcriber
  | highlightEngine
  | thumbnailer
deriving DecidableEq, Inhabited

/-- Environment of one `process_job` run: the filesystem/database facts
it checks, and the results its collaborators would return. -/
structure JobEnv where
  rawFileExists : Bool
  transcriptExists : Bool
  existingClipCount : ℕ
  downloadOk : Bool
  transcribeOk : Bool
  loadedSegmentCount : ℕ
  highlightCount : ℕ
deriving DecidableEq, Inhabited

/-- Final success of `process_job`: `status='ready'`,
`step='preview_ready'`, `progress=100`. -/
def finishJob (j : JobRec) (calls : List Collab) : JobRec × List Collab :=
  ({ j with status := RStatus.ready, step := "preview_ready".toList,
            progress := 100 }, calls)

/-- Steps 3–4 of `process_job`: highlight generation and clip/thumbnail
creation, skipped entirely when clips already exist for the job. -/
def jobHighlightPhase (j : JobRec) (env : JobEnv) (calls : List Collab) :
    JobRec × List Collab :=
  let j5 := { j with step := "generate_highlights".toList, progress := 70 }
  if 0 < env.existingClipCount then finishJob j5 calls
  else if env.loadedSegmentCount = 0 then
    ({ j5 with status := RStatus.failed,
               error := some "No transcript data found".toList }, calls)
  else
    let calls := calls ++ [Collab.highlightEngine]
    if env.highlightCount = 0 then
      ({ j5 with status := RStatus.failed,
                 error := some "No highlights generated".toList }, calls)
    else
      let j6 := { j5 with step := "create_clips".toList, progress := 80 }
      finishJob j6 (calls ++ List.replicate env.highlightCount Collab.thumbnailer)

/-- Step 2 of `process_job`: transcription, skipped when the transcript
artifact already exists. -/
def jobTranscribePhase (j : JobRec) (env : JobEnv) (calls : List Collab) :
    JobRec × List Collab :=
  let j3 := { j with step := "transcribe".toList, progress := 40 }
  if env.transcriptExists then
    jobHighlightPhase { j3 with progress := 60 } env calls
  else
    let calls := calls ++ [Collab.transcriber]
    if ¬ env.transcribeOk then
      ({ j3 with status := RStatus.failed,
                 error := some "Transcription failed".toList }, calls)
    else jobHighlightPhase { j3 with progress := 60 } env calls

/-- `process_job(job_id)` for a job that exists (the missing-job early
return is outside the claims studied here).  Step 1 acquires the raw
video; for `youtube` sources the canonical raw path is keyed by the
job id. -/
def process_job (j : JobRec) (env : JobEnv) : JobRec × List Collab :=
  let j1 := { j with status := RStatus.processing,
                     step := "acquire".toList, progress := 10 }
  match j.sourceType with
  | SourceType.youtube =>
    if env.rawFileExists then
      jobTranscribePhase { j1 with rawPath := some j.jid, progress := 30 } env []
    else if ¬ env.downloadOk then
      ({ j1 with status := RStatus.failed,
                 error := some "YouTube download failed".toList },
       [Collab.downloader])
    else
      jobTranscribePhase { j1 with rawPath := some j.jid, progress := 30 } env
        [Collab.downloader]
  | SourceType.upload =>
    match j.rawPath with
    | none =>
      ({ j1 with status := RStatus.failed,
                 error := some "Upload file not found or path not set".toList },
       [])
    | some p =>
      if ¬ env.rawFileExists then
        ({ j1 with status := RStatus.failed,
                   error := some "Upload file not found or path not set".toList },
         [])
      else
        jobTranscribePhase { j1 with rawPath := some p, progress := 30 } env []

/-- The jobs database plus the ids handed to the scheduler
(`submit_job`). -/
structure JobsDb where
  rows : List JobRec
  submitted : List ℕ
deriving DecidableEq, Inhabited

/-- Typed errors of the job handlers (`JobException` messages in the
source; `invalidState` is the spec's `InvalidStateError`). -/
inductive JobErr where
  | notFound
  | invalidState
deriving DecidableEq, Inhabited

/-- `db.get_job(job_id)` as a lookup. -/
def findJobRow (db : JobsDb) (jid : ℕ) : Option JobRec :=
  db.rows.find? (fun r => r.jid = jid)

/-- `handle_retry_job(job_id)`: succeeds only for `failed`/`ready`
jobs, resetting status/error/progress and resubmitting to the
scheduler; otherwise it raises before any database write. -/
def handle_retry_job (jid : ℕ) (db : JobsDb) :
    JobsDb × Except JobErr Unit :=
  match findJobRow db jid with
  | none => (db, Except.error JobErr.notFound)
  | some j =>
    if ¬ (j.status = RStatus.failed ∨ j.status = RStatus.ready) then
      (db, Except.error JobErr.invalidState)
    else
      ({ rows := db.rows.map (fun r =>
           if r.jid = jid then
             { r with status := RStatus.queued, error := none, progress := 0 }
           else r),
         submitted := db.submitted ++ [jid] },
       Except.ok ())

/-! ## Concrete instances used by witnesses and counterexamples -/

/-- A bare candidate with the given start, end and score (text and
metadata empty), as `remove_overlaps` receives them. -/
def mkCand (s e sc : ℚ) : Cand :=
  { start := s, stop := e, duration := e - s, score := sc, text := [],
    metadata := default, segmentCount := 1 }

/-- The status of a render record, if present. -/
def renderStatusOf (s : RSys) (rid : ℕ) : Option RStatus :=
  (findRender s rid).map (fun r => r.status)

/-- The render record `db.create_render` inserts (schema defaults:
status `queued`, progress `0`). -/
def freshRender (cid rid : ℕ) : RenderRec :=
  { rid := rid, clipId := cid, status := RStatus.queued, progress := 0,
    error := none, outputSet := false }

/-- Two transcript segments of ten seconds each. -/
def c6Segs : List Seg :=
  [{ start := 0, stop := 10, text := [] },
   { start := 10, stop := 20, text := [] }]

/-- The first candidate generated from `c6Segs`. -/
def c6Cand : Cand := (generate_candidates c6Segs 20 true).headD default

/-- Initial state for the concurrency-cap counterexample: one job with
its raw video on disk and three clips, no renders yet. -/
def c2Init : RSys :=
  { jobs := [{ jid := 1, rawPathSet := true }],
    clips := [{ cid := 1, jobId := 1 }, { cid := 2, jobId := 1 },
              { cid := 3, jobId := 1 }],
    renders := [], rawFiles := [1], outFiles := [] }

/-- Cap counterexample, step 1: render 101 for clip 1 is created. -/
def c2S1 : RSys := (createRender 2 1 101 c2Init).1

/-- Step 2: render 101 starts processing. -/
def c2S2 : RSys := procStart 101 c2S1

/-- Step 3: render 101 fails. -/
def c2S3 : RSys := procEnd 101 false c2S2

/-- Step 4: render 102 for clip 2 is created. -/
def c2S4 : RSys := (createRender 2 2 102 c2S3).1

/-- Step 5: render 102 starts processing. -/
def c2S5 : RSys := procStart 102 c2S4

/-- Step 6: render 103 for clip 3 is created (1 active < 2). -/
def c2S6 : RSys := (createRender 2 3 103 c2S5).1

/-- Step 7: render 103 starts processing (2 active). -/
def c2S7 : RSys := procStart 103 c2S6

/-- Step 8: the failed render 101 is retried — no cap check. -/
def c2S8 : RSys := (retryRender 101 c2S7).1

/-- Initial state for the duplicate-render counterexample: one job with
raw video, one clip. -/
def c3Init : RSys :=
  { jobs := [{ jid := 1, rawPathSet := true }],
    clips := [{ cid := 1, jobId := 1 }],
    renders := [], rawFiles := [1], outFiles := [] }

/-- Dup counterexample, step 1: render 201 for clip 1 is created. -/
def c3S1 : RSys := (createRender 2 1 201 c3Init).1

/-- Step 2: render 201 starts processing. -/
def c3S2 : RSys := procStart 201 c3S1

/-- Step 3: render 201 fails. -/
def c3S3 : RSys := procEnd 201 false c3S2

/-- Step 4: render 202 for clip 1 is created (201 is inactive). -/
def c3S4 : RSys := (createRender 2 1 202 c3S3).1

/-- Step 5: the failed render 201 is retried — no duplicate check. -/
def c3S5 : RSys := (retryRender 201 c3S4).1

/-- State for the submission-precondition counterexample: the job row
exists with `raw_path` set, but the raw video file is gone from disk;
the clip exists; no renders. -/
def c4Init : RSys :=
  { jobs := [{ jid := 1, rawPathSet := true }],
    clips := [{ cid := 1, jobId := 1 }],
    renders := [], rawFiles := [], outFiles := [] }

/-- The state after submitting a render for clip 1 of `c4Init`. -/
def c4S1 : RSys := (createRender 2 1 301 c4Init).1

/-- A state with the concurrency cap (2) saturated by two processing
renders, plus a third clip with no render. -/
def capFullSys : RSys :=
  { jobs := [{ jid := 1, rawPathSet := true }],
    clips := [{ cid := 1, jobId := 1 }, { cid := 2, jobId := 1 },
              { cid := 3, jobId := 1 }],
    renders :=
      [{ rid := 11, clipId := 1, status := RStatus.processing,
         progress := 10, error := none, outputSet := false },
       { rid := 12, clipId := 2, status := RStatus.processing,
         progress := 10, error := none, outputSet := false }],
    rawFiles := [1], outFiles := [] }

/-- A jobs database holding a single `processing` job (id 7). -/
def w8Row : JobRec :=
  { jid := 7, sourceType := SourceType.youtube, status := RStatus.processing,
    step := [], progress := 50, error := none, rawPath := none }

/-- The database around `w8Row`. -/
def w8Db : JobsDb := { rows := [w8Row], submitted := [] }

/-- A queued YouTube job used by the idempotent-resume witness. -/
def w5Job : JobRec :=
  { jid := 3, sourceType := SourceType.youtube, status := RStatus.queued,
    step := [], progress := 0, error := none, rawPath := none }

/-- An environment in which every artifact of `w5Job` already exists. -/
def w5Env : JobEnv :=
  { rawFileExists := true, transcriptExists := true, existingClipCount := 4,
    downloadOk := false, transcribeOk := false, loadedSegmentCount := 0,
    highlightCount := 0 }

/-- The compatibility relation maintained between an earlier-accepted
clip `a` and a later-accepted clip `b` in the `remove_overlaps`
selection loop: `b` ends before `a` starts (with the gap) or starts
after `a` ends. -/
def compatAfter (minGap : ℚ) (a b : Cand) : Prop :=
  b.stop ≤ a.start - minGap ∨ a.stop ≤ b.start

instance : IsTotal Cand (fun a b => a.start ≤ b.start) :=
  ⟨fun a b => le_total a.start b.start⟩

instance : IsTrans Cand (fun a b => a.start ≤ b.start) :=
  ⟨fun _ _ _ => le_trans⟩

/-! ## Theorems -/

section MainTheorems

/- Batteries marks rational arithmetic `@[irreducible]`, which blocks
`decide`-style evaluation of the embedded functions at concrete
inputs; restore reducibility locally for the proofs. -/
attribute [local semireducible] Rat.add Rat.sub Rat.mul Rat.inv Rat.ofScientific

/-- Every candidate the inner loop emits respects the duration guards
(`continue` below `MIN_CLIP_DURATION`, `break` above
`MAX_CLIP_DURATION`). -/
theorem innerCandidates_duration_bounds (segs : List Seg) (n : ℕ)
    (totalDuration : ℚ) (i : ℕ) :
    ∀ (js : List ℕ) (c : Cand), c ∈ innerCandidates segs n totalDuration i js →
      MIN_CLIP_DURATION ≤ c.stop - c.start ∧ c.stop - c.start ≤ MAX_CLIP_DURATION := by
  intro js
  induction js with
  | nil => intro c hc; simp [innerCandidates] at hc
  | cons j js ih =>
    intro c hc
    rw [innerCandidates] at hc
    split_ifs at hc with h1 h2
    · exact ih c hc
    · simp at hc
    · rcases List.mem_cons.mp hc with rfl | h
      · constructor
        · simpa using le_of_not_lt h1
        · simpa using le_of_not_lt h2
      · exact ih c h

/-- Every candidate the outer loop emits respects the duration
bounds. -/
theorem outerCandidates_duration_bounds (segs : List Seg) (n : ℕ)
    (totalDuration : ℚ) (stepSize : ℕ) :
    ∀ (fuel i : ℕ) (c : Cand),
      c ∈ outerCandidates segs n totalDuration stepSize fuel i →
      MIN_CLIP_DURATION ≤ c.stop - c.start ∧ c.stop - c.start ≤ MAX_CLIP_DURATION := by
  intro fuel
  induction fuel with
  | zero => intro i c hc; simp [outerCandidates] at hc
  | succ fuel ih =>
    intro i c hc
    rw [outerCandidates] at hc
    split_ifs at hc with h1
    · rcases List.mem_append.mp hc with h | h
      · exact innerCandidates_duration_bounds segs n totalDuration i _ c h
      · exact ih _ c h
    · simp at hc

/-- C6: every candidate emitted by `generate_candidates` has duration
`end − start` within `[MIN_CLIP_DURATION, MAX_CLIP_DURATION]`, for
every segment list, total duration and adaptive flag. -/
theorem generate_candidates_duration_bounds (segs : List Seg)
    (totalDuration : ℚ) (adaptiveStep : Bool) (c : Cand)
    (hc : c ∈ generate_candidates segs totalDuration adaptiveStep) :
    MIN_CLIP_DURATION ≤ c.stop - c.start ∧ c.stop - c.start ≤ MAX_CLIP_DURATION := by
  exact outerCandidates_duration_bounds segs segs.length totalDuration _ _ _ c hc

/-- Witness for C6 at a concrete input: the candidate generated from
two ten-second segments has duration within the bounds. -/
theorem generate_candidates_duration_bounds_witness :
    MIN_CLIP_DURATION ≤ c6Cand.stop - c6Cand.start ∧
      c6Cand.stop - c6Cand.start ≤ MAX_CLIP_DURATION :=
  generate_candidates_duration_bounds c6Segs 20 true c6Cand (by decide)

/-- `pyIntTrunc` agrees with the floor on nonnegative rationals. -/
theorem pyIntTrunc_eq_floor (q : ℚ) (h : 0 ≤ q) : pyIntTrunc q = ⌊q⌋ :=
  if_pos h

/-- For durations beyond the two-hour tier, `int(duration_minutes / 3)`
is at least 40. -/
theorem pyIntTrunc_div3_ge (m : ℚ) (h : 120 < m) : 40 ≤ pyIntTrunc (m / 3) := by
  have h0 : (0 : ℚ) ≤ m / 3 := by linarith
  rw [pyIntTrunc_eq_floor _ h0]
  exact Int.le_floor.mpr (by push_cast; linarith)

/-- `int(· / 3)` is monotone on the relevant (positive) range. -/
theorem pyIntTrunc_div3_mono (m1 m2 : ℚ) (h0 : 0 ≤ m1) (h : m1 ≤ m2) :
    pyIntTrunc (m1 / 3) ≤ pyIntTrunc (m2 / 3) := by
  have h1 : (0 : ℚ) ≤ m1 / 3 := by linarith
  have h2 : (0 : ℚ) ≤ m2 / 3 := by linarith
  rw [pyIntTrunc_eq_floor _ h1, pyIntTrunc_eq_floor _ h2]
  exact Int.floor_le_floor (by linarith)

/-- C9: with the default configuration (`base_count = DEFAULT_CLIP_COUNT
= 12`), `calculate_dynamic_clip_count` is monotone non-decreasing in the
video duration and never exceeds 50. -/
theorem calculate_dynamic_clip_count_monotone_bounded (d1 d2 : ℚ) (h : d1 ≤ d2) :
    calculate_dynamic_clip_count d1 DEFAULT_CLIP_COUNT ≤
        calculate_dynamic_clip_count d2 DEFAULT_CLIP_COUNT ∧
      calculate_dynamic_clip_count d1 DEFAULT_CLIP_COUNT ≤ 50 := by
  have hm : d1 / 60 ≤ d2 / 60 := by linarith
  unfold calculate_dynamic_clip_count DEFAULT_CLIP_COUNT
  dsimp only
  constructor
  · split_ifs with h1 h2 h3 h4 h5 h6 h7 h8 <;>
      first
        | decide
        | (exact absurd (le_trans hm (by assumption)) (by assumption))
        | (refine le_min (le_trans (by decide) (pyIntTrunc_div3_ge _ (by linarith))) (by decide))
        | (exact min_le_min (pyIntTrunc_div3_mono _ _ (by linarith) hm) le_rfl)
  · split_ifs <;> first | decide | exact min_le_right _ _

/-- Witness for C9 at concrete durations 600 s and 9000 s. -/
theorem calculate_dynamic_clip_count_monotone_bounded_witness :
    calculate_dynamic_clip_count 600 DEFAULT_CLIP_COUNT ≤
        calculate_dynamic_clip_count 9000 DEFAULT_CLIP_COUNT ∧
      calculate_dynamic_clip_count 600 DEFAULT_CLIP_COUNT ≤ 50 :=
  calculate_dynamic_clip_count_monotone_bounded 600 9000 (by norm_num)

/-- Each keyword category contributes a nonnegative amount. -/
theorem categoryContribution_nonneg (kws : List (List Char)) (w : ℚ)
    (t : List Char) (hw : 0 ≤ w) : 0 ≤ categoryContribution kws w t := by
  unfold categoryContribution
  dsimp only
  split_ifs with h
  · exact le_min (by positivity) (by positivity)
  · exact le_refl 0

/-- The keyword component of the score lies in `[0, 35]`. -/
theorem keywordPoints_bounds (t : List Char) :
    0 ≤ keywordPoints t ∧ keywordPoints t ≤ 35 := by
  unfold keywordPoints
  refine ⟨le_min ?_ (by norm_num), min_le_right _ _⟩
  have h1 := categoryContribution_nonneg importanceKeywords 10 t (by norm_num)
  have h2 := categoryContribution_nonneg revelationKeywords 9 t (by norm_num)
  have h3 := categoryContribution_nonneg summaryKeywords 8 t (by norm_num)
  have h4 := categoryContribution_nonneg teachingKeywords 7 t (by norm_num)
  linarith

/-- The word-count bonus lies in `[0, 5]`. -/
theorem wordCountBonus_bounds (n : ℕ) :
    0 ≤ wordCountBonus n ∧ wordCountBonus n ≤ 5 := by
  unfold wordCountBonus
  split_ifs <;> norm_num

/-- The content-quality component of the score lies in `[0, 25]`. -/
theorem contentPoints_bounds (t : List Char) :
    0 ≤ contentPoints t ∧ contentPoints t ≤ 25 := by
  unfold contentPoints
  dsimp only
  have hwc := wordCountBonus_bounds (wordsOf t).length
  split_ifs with h1 h2 h2 <;>
    [skip; skip; norm_num; norm_num]
  all_goals {
    have hlen : 0 < ((wordsOf t).length : ℚ) := by
      exact_mod_cast Nat.pos_of_ne_zero h1
    have hratio0 : 0 ≤ ((wordsOf t).dedup.length : ℚ) / ((wordsOf t).length : ℚ) :=
      div_nonneg (by positivity) (le_of_lt hlen)
    have hratio1 : ((wordsOf t).dedup.length : ℚ) / ((wordsOf t).length : ℚ) ≤ 1 := by
      rw [div_le_one hlen]
      exact_mod_cast ((wordsOf t).dedup_sublist).length_le
    constructor <;> nlinarith
  }

/-- The duration-fit component of the score lies in `[0, 25]`. -/
theorem durationPoints_bounds (d : ℚ) :
    0 ≤ durationPoints d ∧ durationPoints d ≤ 25 := by
  unfold durationPoints
  split_ifs <;> norm_num

/-- The position component of the score lies in `[0, 10]`. -/
theorem positionPoints_bounds (i n : ℕ) :
    0 ≤ positionPoints i n ∧ positionPoints i n ≤ 10 := by
  unfold positionPoints
  dsimp only
  split_ifs <;> norm_num

/-- C10: for every text, `start ≤ end`, total duration, and segment
position with `total_segments > 0`, the score returned by
`score_segment` lies in `[0, 95]`, with the keyword component at most
35, the content component at most 25, the duration component at most
25, and the position bonus at most 10.  (The model is a total function:
the embedded `score_segment` returns on every input.) -/
theorem score_segment_bounds (text : List Char) (start stop totalDuration : ℚ)
    (i n : ℕ) (hn : 0 < n) (hse : start ≤ stop) :
    0 ≤ (score_segment text start stop totalDuration i n).1 ∧
      (score_segment text start stop totalDuration i n).1 ≤ 95 ∧
      keywordPoints (toLowerList text) ≤ 35 ∧
      contentPoints (toLowerList text) ≤ 25 ∧
      durationPoints (stop - start) ≤ 25 ∧
      positionPoints i n ≤ 10 := by
  have h1 := keywordPoints_bounds (toLowerList text)
  have h2 := contentPoints_bounds (toLowerList text)
  have h3 := durationPoints_bounds (stop - start)
  have h4 := positionPoints_bounds i n
  have hval : (score_segment text start stop totalDuration i n).1 =
      keywordPoints (toLowerList text) + contentPoints (toLowerList text) +
        durationPoints (stop - start) + positionPoints i n := rfl
  rw [hval]
  exact ⟨by linarith, by linarith, h1.2, h2.2, h3.2, h4.2⟩

/-- Witness for C10 at a concrete input. -/
theorem score_segment_bounds_witness :
    0 ≤ (score_segment "how to do this".toList 0 30 100 0 10).1 ∧
      (score_segment "how to do this".toList 0 30 100 0 10).1 ≤ 95 ∧
      keywordPoints (toLowerList "how to do this".toList) ≤ 35 ∧
      contentPoints (toLowerList "how to do this".toList) ≤ 25 ∧
      durationPoints ((30 : ℚ) - 0) ≤ 25 ∧
      positionPoints 0 10 ≤ 10 :=
  score_segment_bounds "how to do this".toList 0 30 100 0 10 (by decide)
    (by norm_num)

/-- Everything the selection loop returns comes from its accumulator or
its remaining input. -/
theorem selectGo_mem (minGap : ℚ) (topN : ℤ) :
    ∀ (rest acc : List Cand) (c : Cand), c ∈ selectGo minGap topN rest acc →
      c ∈ acc ∨ c ∈ rest := by
  intro rest
  induction rest with
  | nil => intro acc c hc; rw [selectGo] at hc; exact Or.inl hc
  | cons x rest ih =>
    intro acc c hc
    rw [selectGo] at hc
    dsimp only at hc
    split_ifs at hc with h1 h2
    · rcases ih acc c hc with h | h
      · exact Or.inl h
      · exact Or.inr (List.mem_cons_of_mem x h)
    · rcases List.mem_append.mp hc with h | h
      · exact Or.inl h
      · exact Or.inr (List.mem_cons.mpr (Or.inl (List.mem_singleton.mp h)))
    · rcases ih _ c hc with h | h
      · rcases List.mem_append.mp h with h' | h'
        · exact Or.inl h'
        · exact Or.inr (List.mem_cons.mpr (Or.inl (List.mem_singleton.mp h')))
      · exact Or.inr (List.mem_cons_of_mem x h)

/-- A failed overlap test is exactly the loop's compatibility
relation. -/
theorem overlapsWith_eq_false_iff (minGap : ℚ) (c s : Cand) :
    overlapsWith minGap c s = false ↔ compatAfter minGap s c := by
  unfold overlapsWith compatAfter
  simp only [Bool.not_eq_false', Bool.or_eq_true, decide_eq_true_eq, ge_iff_le]

/-- The selection loop preserves pairwise compatibility of the
accumulator (in selection order). -/
theorem selectGo_pairwise (minGap : ℚ) (topN : ℤ) :
    ∀ (rest acc : List Cand), acc.Pairwise (compatAfter minGap) →
      (selectGo minGap topN rest acc).Pairwise (compatAfter minGap) := by
  intro rest
  induction rest with
  | nil => intro acc hacc; rw [selectGo]; exact hacc
  | cons x rest ih =>
    intro acc hacc
    rw [selectGo]
    dsimp only
    split_ifs with h1 h2
    · exact ih acc hacc
    · refine List.pairwise_append.mpr ⟨hacc, List.pairwise_singleton _ _, ?_⟩
      intro a ha b hb
      rw [List.mem_singleton.mp hb]
      have := (List.any_eq_false (l := acc)).mp (by simpa [overlapsAny] using h1) a ha
      exact (overlapsWith_eq_false_iff minGap x a).mp (by simpa using this)
    · refine ih _ (List.pairwise_append.mpr ⟨hacc, List.pairwise_singleton _ _, ?_⟩)
      intro a ha b hb
      rw [List.mem_singleton.mp hb]
      have := (List.any_eq_false (l := acc)).mp (by simpa [overlapsAny] using h1) a ha
      exact (overlapsWith_eq_false_iff minGap x a).mp (by simpa using this)

/-- As long as the accumulator is below `top_n`, the loop's result never
exceeds `top_n`. -/
theorem selectGo_length_le (minGap : ℚ) (topN : ℤ) :
    ∀ (rest acc : List Cand), (acc.length : ℤ) < topN →
      ((selectGo minGap topN rest acc).length : ℤ) ≤ topN := by
  intro rest
  induction rest with
  | nil => intro acc hacc; rw [selectGo]; exact le_of_lt hacc
  | cons x rest ih =>
    intro acc hacc
    rw [selectGo]
    dsimp only
    split_ifs with h1 h2
    · exact ih acc hacc
    · simpa using hacc
    · exact ih _ (by simpa using lt_of_not_le h2)

/-- C1 (amended): with a nonnegative `min_gap` and candidates whose
start precedes their end, the highlights returned by `remove_overlaps`
are pairwise non-overlapping — each earlier highlight ends no later
than the next one starts — and during selection a candidate fails the
per-pair overlap test exactly when `candidate.end > accepted.start −
minGap` and `candidate.start < accepted.end`.  (The claimed stronger
gap `B.start ≥ A.end + minGap` does not hold; see the
counterexample.) -/
theorem remove_overlaps_nonoverlap (cands : List Cand) (topN : ℤ)
    (minGap : ℚ) (c s : Cand) (hgap : 0 ≤ minGap)
    (hlt : ∀ x ∈ cands, x.start < x.stop) :
    (remove_overlaps cands topN minGap).Pairwise (fun a b => a.stop ≤ b.start) ∧
      (overlapsWith minGap c s = true ↔
        s.start - minGap < c.stop ∧ c.start < s.stop) := by
  constructor
  · unfold remove_overlaps sortByStart
    have hpair : (selectGo minGap topN (sortByScoreDesc cands) []).Pairwise
        (compatAfter minGap) :=
      selectGo_pairwise minGap topN _ [] List.Pairwise.nil
    have hperm : List.Perm
        (List.insertionSort (fun a b : Cand => a.start ≤ b.start)
          (selectGo minGap topN (sortByScoreDesc cands) []))
        (selectGo minGap topN (sortByScoreDesc cands) []) :=
      List.perm_insertionSort _ _
    have hp2 : (selectGo minGap topN (sortByScoreDesc cands) []).Pairwise
        (fun a b => compatAfter minGap a b ∨ compatAfter minGap b a) :=
      hpair.imp (fun h => Or.inl h)
    have hp3 := (hperm.pairwise_iff (fun hab => Or.symm hab)).mpr hp2
    have hsorted : (List.insertionSort (fun a b : Cand => a.start ≤ b.start)
        (selectGo minGap topN (sortByScoreDesc cands) [])).Pairwise
        (fun a b => a.start ≤ b.start) :=
      List.sorted_insertionSort _ _
    have hmem : ∀ x ∈ (List.insertionSort (fun a b : Cand => a.start ≤ b.start)
        (selectGo minGap topN (sortByScoreDesc cands) [])), x.start < x.stop := by
      intro x hx
      rcases selectGo_mem minGap topN _ [] x (hperm.mem_iff.mp hx) with h | h
      · simp at h
      · exact hlt x ((List.mem_insertionSort _).mp h)
    refine List.Pairwise.imp_of_mem ?_ (hp3.and hsorted)
    intro a b ha hb hab
    rcases hab with ⟨hr | hr, hle⟩
    · rcases hr with h | h
      · exact absurd h (by have := hmem b hb; push_neg; nlinarith [hmem a ha])
      · exact h
    · rcases hr with h | h
      · linarith
      · have := hmem b hb
        linarith
  · unfold overlapsWith
    simp only [Bool.not_eq_true', Bool.or_eq_false_iff, decide_eq_false_iff_not,
      ge_iff_le, not_le]

/-- C1 counterexample: two candidates `[0,30]` (score 90) and `[30,50]`
(score 80) with `min_gap = 10` are both selected, and the second starts
exactly at the first one's end — the claimed `B.start ≥ A.end + minGap`
is violated. -/
theorem remove_overlaps_gap_counterexample :
    ¬ (remove_overlaps [mkCand 0 30 90, mkCand 30 50 80] 5 10).Pairwise
        (fun a b => a.stop + 10 ≤ b.start) := by
  decide

/-- Witness for C1 at a concrete input. -/
theorem remove_overlaps_nonoverlap_witness :
    (remove_overlaps [mkCand 0 30 90, mkCand 30 50 80] 5 10).Pairwise
        (fun a b => a.stop ≤ b.start) ∧
      (overlapsWith 10 (mkCand 10 40 90) (mkCand 0 30 80) = true ↔
        (mkCand 0 30 80).start - 10 < (mkCand 10 40 90).stop ∧
          (mkCand 10 40 90).start < (mkCand 0 30 80).stop) :=
  remove_overlaps_nonoverlap [mkCand 0 30 90, mkCand 30 50 80] 5 10
    (mkCand 10 40 90) (mkCand 0 30 80) (by norm_num) (by decide)

/-- C7 (amended): for `desiredCount ≥ 1`, `remove_overlaps` returns at
most `desiredCount` highlights (the loop stops as soon as that many are
accepted, or when candidates run out), and the result is sorted
ascending by start time.  (For `desiredCount ≤ 0` the loop still
accepts one candidate before checking the bound; see the
counterexample.) -/
theorem remove_overlaps_size_sorted (cands : List Cand) (topN : ℤ)
    (minGap : ℚ) (htop : 1 ≤ topN) :
    ((remove_overlaps cands topN minGap).length : ℤ) ≤ topN ∧
      (remove_overlaps cands topN minGap).Pairwise
        (fun a b => a.start ≤ b.start) := by
  constructor
  · unfold remove_overlaps sortByStart
    rw [(List.perm_insertionSort _ _).length_eq]
    exact selectGo_length_le minGap topN _ [] (by simpa using htop)
  · exact List.sorted_insertionSort _ _

/-- C7 counterexample: with `top_n = 0` and one candidate, the loop
accepts the candidate before testing the bound, so the result has one
element — more than `desiredCount = 0`. -/
theorem remove_overlaps_size_counterexample :
    ¬ ((remove_overlaps [mkCand 0 30 90] 0 10).length : ℤ) ≤ 0 := by
  decide

/-- Witness for C7 at a concrete input. -/
theorem remove_overlaps_size_sorted_witness :
    ((remove_overlaps [mkCand 0 30 90, mkCand 30 50 80] 1 10).length : ℤ) ≤ 1 ∧
      (remove_overlaps [mkCand 0 30 90, mkCand 30 50 80] 1 10).Pairwise
        (fun a b => a.start ≤ b.start) :=
  remove_overlaps_size_sorted [mkCand 0 30 90, mkCand 30 50 80] 1 10
    (by norm_num)

/-- C2 counterexample: starting from `c2Init` with
`MAX_CONCURRENT_RENDERS = 2`, the render subsystem reaches a state with
three active renders: render 101 fails, renders 102 and 103 occupy the
cap, and `handle_retry_render` requeues 101 without any cap check. -/
theorem renderCap_counterexample :
    RReach 2 c2Init c2S8 ∧ 2 < activeCount c2S8 := by
  constructor
  · exact Relation.ReflTransGen.head (RStep.create 1 101 c2Init)
      (Relation.ReflTransGen.head (RStep.start 101 c2S1)
        (Relation.ReflTransGen.head (RStep.finish 101 false c2S2)
          (Relation.ReflTransGen.head (RStep.create 2 102 c2S3)
            (Relation.ReflTransGen.head (RStep.start 102 c2S4)
              (Relation.ReflTransGen.head (RStep.create 3 103 c2S5)
                (Relation.ReflTransGen.head (RStep.start 103 c2S6)
                  (Relation.ReflTransGen.single (RStep.retry 101 c2S7))))))))
  · decide

/-- C3 counterexample: starting from `c3Init`, render 201 for clip 1
fails, render 202 for the same clip is created, and retrying 201 yields
two simultaneously queued renders of clip 1 — `handle_retry_render`
makes no duplicate check. -/
theorem renderDup_counterexample :
    RReach 2 c3Init c3S5 ∧ ¬ NoDupActive c3S5.renders := by
  constructor
  · exact Relation.ReflTransGen.head (RStep.create 1 201 c3Init)
      (Relation.ReflTransGen.head (RStep.start 201 c3S1)
        (Relation.ReflTransGen.head (RStep.finish 201 false c3S2)
          (Relation.ReflTransGen.head (RStep.create 1 202 c3S3)
            (Relation.ReflTransGen.single (RStep.retry 201 c3S4)))))
  · unfold NoDupActive
    decide

/-- C4 counterexample: in `c4Init` the clip's job has no raw video on
disk, yet the submission succeeds and creates a render record, which
the processor then marks `failed` — the raw-artifact precondition is
not checked at submission time. -/
theorem renderPrecheck_counterexample :
    (createRender 2 1 301 c4Init).2 = Except.ok () ∧
      c4S1.renders.length = 1 ∧
      renderStatusOf (procStart 301 c4S1) 301 = some RStatus.failed :=
  ⟨rfl, by decide, by decide⟩

/-- In a state with distinct render ids, any row sharing the id found
by `findRender` is that row. -/
theorem findRender_unique (s : RSys) (rid : ℕ) (r : RenderRec)
    (hok : RidsOk s) (hfind : findRender s rid = some r) :
    ∀ x ∈ s.renders, x.rid = rid → x = r := by
  intro x hx hxr
  have hrmem : r ∈ s.renders := List.mem_of_find?_eq_some hfind
  have hrrid : r.rid = rid := by
    have := List.find?_some hfind
    simpa using this
  exact List.inj_on_of_nodup_map hok hx hrmem (by rw [hxr, hrrid])

/-- A single-row update whose new status is active only if the old one
was cannot increase the number of active renders. -/
theorem activeCount_updateRender_le (s : RSys) (rid : ℕ) (r : RenderRec)
    (f : RenderRec → RenderRec) (hok : RidsOk s)
    (hfind : findRender s rid = some r)
    (hact : rActive (f r).status = true → rActive r.status = true) :
    activeCount (updateRender s rid f) ≤ activeCount s := by
  unfold activeCount updateRender
  rw [← List.countP_eq_length_filter, ← List.countP_eq_length_filter]
  dsimp only
  rw [List.countP_map]
  refine List.countP_mono_left ?_
  intro x hx hpx
  by_cases hxr : x.rid = rid
  · have hxeq := findRender_unique s rid r hok hfind x hx hxr
    subst hxeq
    simp only [Function.comp, hxr, if_pos] at hpx
    simpa using hact (by simpa using hpx)
  · simpa [Function.comp, hxr] using hpx

/-- A single-row update that preserves the clip id and activates no
inactive render preserves the per-clip duplicate invariant. -/
theorem noDupActive_updateRender (s : RSys) (rid : ℕ) (r : RenderRec)
    (f : RenderRec → RenderRec) (hok : RidsOk s)
    (hfind : findRender s rid = some r)
    (hcid : ∀ x, (f x).clipId = x.clipId)
    (hact : rActive (f r).status = true → rActive r.status = true)
    (hinv : NoDupActive s.renders) :
    NoDupActive (updateRender s rid f).renders := by
  unfold NoDupActive updateRender
  dsimp only
  rw [List.pairwise_map]
  refine List.Pairwise.imp_of_mem ?_ hinv
  intro a b ha hb hrel hcontra
  apply hrel
  have hclipa : (if a.rid = rid then f a else a).clipId = a.clipId := by
    split_ifs <;> simp [hcid]
  have hclipb : (if b.rid = rid then f b else b).clipId = b.clipId := by
    split_ifs <;> simp [hcid]
  have hacta : rActive (if a.rid = rid then f a else a).status = true →
      rActive a.status = true := by
    split_ifs with h
    · have := findRender_unique s rid r hok hfind a ha h
      subst this; exact hact
    · exact id
  have hactb : rActive (if b.rid = rid then f b else b).status = true →
      rActive b.status = true := by
    split_ifs with h
    · have := findRender_unique s rid r hok hfind b hb h
      subst this; exact hact
    · exact id
  refine ⟨?_, hacta hcontra.2.1, hactb hcontra.2.2⟩
  rw [← hclipa, ← hclipb]
  exact hcontra.1

/-- `handle_create_render` keeps the active count within the cap: it
creates a (queued) render only after checking `active < maxConc`. -/
theorem activeCount_createRender_le (maxConc cid rid : ℕ) (s : RSys)
    (hinv : activeCount s ≤ maxConc) :
    activeCount (createRender maxConc cid rid s).1 ≤ maxConc := by
  unfold createRender
  cases hfc : findClip s cid with
  | none => exact hinv
  | some c =>
    dsimp only
    split_ifs with h1 h2
    · exact hinv
    · exact hinv
    · show activeCount _ ≤ maxConc
      have : activeCount { cleanupOldRenders s cid with
          renders := (cleanupOldRenders s cid).renders ++
            [{ rid := rid, clipId := cid, status := RStatus.queued,
               progress := 0, error := none, outputSet := false }] } =
          activeCount s + 1 := by
        simp [activeCount, cleanupOldRenders, List.filter_append, rActive]
      rw [this]
      omega

/-- One `handle_batch_render` iteration keeps the active count within
the cap. -/
theorem activeCount_batchStep_le (maxConc jid cid rid : ℕ) (s : RSys)
    (hinv : activeCount s ≤ maxConc) :
    activeCount (batchStep maxConc jid cid rid s) ≤ maxConc := by
  unfold batchStep
  cases hfc : findClip s cid with
  | none => exact hinv
  | some c =>
    dsimp only
    split_ifs with h0 h1 h2
    · exact hinv
    · exact hinv
    · exact hinv
    · have : activeCount { cleanupOldRenders s cid with
          renders := (cleanupOldRenders s cid).renders ++
            [{ rid := rid, clipId := cid, status := RStatus.queued,
               progress := 0, error := none, outputSet := false }] } =
          activeCount s + 1 := by
        simp [activeCount, cleanupOldRenders, List.filter_append, rActive]
      rw [this]
      omega

/-- The whole `handle_batch_render` loop keeps the active count within
the cap. -/
theorem activeCount_batchLoop_le (maxConc jid : ℕ) :
    ∀ (reqs : List (ℕ × ℕ)) (s : RSys), activeCount s ≤ maxConc →
      activeCount (batchLoop maxConc jid reqs s) ≤ maxConc := by
  intro reqs
  induction reqs with
  | nil => intro s hinv; exact hinv
  | cons p rest ih =>
    intro s hinv
    exact ih _ (activeCount_batchStep_le maxConc jid p.1 p.2 s hinv)

/-- The check-and-start phase of `process_render` never increases the
active count (queued renders become processing or failed). -/
theorem activeCount_procStart_le (rid : ℕ) (s : RSys) (hok : RidsOk s) :
    activeCount (procStart rid s) ≤ activeCount s := by
  unfold procStart
  cases hfr : findRender s rid with
  | none => exact le_refl _
  | some r =>
    dsimp only
    split_ifs with hq
    · exact le_refl _
    · cases hfc : findClip s r.clipId with
      | none =>
        exact activeCount_updateRender_le s rid r _ hok hfr
          (fun _ => by simp [rActive, not_not.mp hq])
      | some c =>
        dsimp only
        cases hfj : findJob s c.jobId with
        | none =>
          exact activeCount_updateRender_le s rid r _ hok hfr
            (fun _ => by simp [rActive, not_not.mp hq])
        | some j =>
          dsimp only
          split_ifs with hset hfile <;>
            exact activeCount_updateRender_le s rid r _ hok hfr
              (fun _ => by simp [rActive, not_not.mp hq])

/-- The completion phase of `process_render` never increases the active
count (processing renders become ready or failed). -/
theorem activeCount_procEnd_le (rid : ℕ) (ok : Bool) (s : RSys)
    (hok : RidsOk s) :
    activeCount (procEnd rid ok s) ≤ activeCount s := by
  unfold procEnd
  cases hfr : findRender s rid with
  | none => exact le_refl _
  | some r =>
    dsimp only
    split_ifs with hq hout hsucc
    · exact le_refl _
    · exact activeCount_updateRender_le s rid r _ hok hfr
        (fun _ => by simp [rActive, not_not.mp hq])
    · show activeCount { updateRender s rid _ with outFiles := _ } ≤ _
      exact activeCount_updateRender_le s rid r _ hok hfr
        (fun _ => by simp [rActive, not_not.mp hq])
    · exact activeCount_updateRender_le s rid r _ hok hfr
        (fun _ => by simp [rActive, not_not.mp hq])

/-- Submitting a render at the cap fails with the concurrency error and
leaves the state unchanged. -/
theorem createRender_at_cap (maxConc cid rid : ℕ) (s : RSys)
    (hclip : (findClip s cid).isSome = true)
    (hcap : maxConc ≤ activeCount s) :
    createRender maxConc cid rid s = (s, Except.error RenderErr.concurrencyLimit) := by
  unfold createRender
  obtain ⟨c, hc⟩ := Option.isSome_iff_exists.mp hclip
  rw [hc]
  dsimp only
  rw [if_pos hcap]

/-- C2 (amended): `handle_create_render`, `handle_batch_render` and the
two phases of `process_render` all preserve `activeCount ≤
MAX_CONCURRENT_RENDERS`, and a submission made at the cap (with an
existing clip) returns `ConcurrencyLimitError` with the state — hence
the render table — unchanged.  (`handle_retry_render` does not check
the cap and can exceed it; see the counterexample.) -/
theorem render_concurrency_cap (maxConc cid rid jid prid : ℕ)
    (reqs : List (ℕ × ℕ)) (ok : Bool) (s : RSys)
    (hinv : activeCount s ≤ maxConc) (hok : RidsOk s) :
    activeCount (createRender maxConc cid rid s).1 ≤ maxConc ∧
      activeCount (batchRender maxConc jid reqs s).1 ≤ maxConc ∧
      activeCount (procStart prid s) ≤ maxConc ∧
      activeCount (procEnd prid ok s) ≤ maxConc ∧
      ((findClip s cid).isSome = true → maxConc ≤ activeCount s →
        createRender maxConc cid rid s = (s, Except.error RenderErr.concurrencyLimit)) := by
  refine ⟨activeCount_createRender_le maxConc cid rid s hinv, ?_,
    le_trans (activeCount_procStart_le prid s hok) hinv,
    le_trans (activeCount_procEnd_le prid ok s hok) hinv,
    createRender_at_cap maxConc cid rid s⟩
  unfold batchRender
  cases hfj : findJob s jid with
  | none => exact hinv
  | some j => exact activeCount_batchLoop_le maxConc jid reqs s hinv

/-- Witness for C2 at the saturated state `capFullSys` with cap 2. -/
theorem render_concurrency_cap_witness :
    activeCount (createRender 2 3 31 capFullSys).1 ≤ 2 ∧
      activeCount (batchRender 2 1 [(3, 32)] capFullSys).1 ≤ 2 ∧
      activeCount (procStart 11 capFullSys) ≤ 2 ∧
      activeCount (procEnd 11 true capFullSys) ≤ 2 ∧
      createRender 2 3 31 capFullSys =
        (capFullSys, Except.error RenderErr.concurrencyLimit) := by
  have h := render_concurrency_cap 2 3 31 1 11 [(3, 32)] true capFullSys
    (by decide) (by unfold RidsOk; decide)
  exact ⟨h.1, h.2.1, h.2.2.1, h.2.2.2.1, h.2.2.2.2 (by decide) (by decide)⟩

/-- Appending a fresh queued render for a clip with no active render
preserves the per-clip duplicate invariant. -/
theorem noDupActive_append (renders : List RenderRec) (cid rid : ℕ)
    (hinv : NoDupActive renders)
    (hdup : renders.any (fun r => r.clipId = cid && rActive r.status) = false) :
    NoDupActive (renders ++ [freshRender cid rid]) := by
  unfold NoDupActive at *
  refine List.pairwise_append.mpr ⟨hinv, List.pairwise_singleton _ _, ?_⟩
  intro a ha b hb
  rw [List.mem_singleton.mp hb]
  rintro ⟨hclip, hacta, _⟩
  have := List.any_eq_false.mp hdup a ha
  apply this
  simp only [freshRender] at hclip
  simp [hclip, hacta]

/-- `handle_create_render` preserves the per-clip duplicate
invariant. -/
theorem noDupActive_createRender (maxConc cid rid : ℕ) (s : RSys)
    (hinv : NoDupActive s.renders) :
    NoDupActive (createRender maxConc cid rid s).1.renders := by
  unfold createRender
  cases hfc : findClip s cid with
  | none => exact hinv
  | some c =>
    dsimp only
    split_ifs with h1 h2
    · exact hinv
    · exact hinv
    · exact noDupActive_append s.renders cid rid hinv
        (by simpa [hasActiveForClip] using Bool.eq_false_iff.mpr h2)

/-- One `handle_batch_render` iteration preserves the per-clip
duplicate invariant. -/
theorem noDupActive_batchStep (maxConc jid cid rid : ℕ) (s : RSys)
    (hinv : NoDupActive s.renders) :
    NoDupActive (batchStep maxConc jid cid rid s).renders := by
  unfold batchStep
  cases hfc : findClip s cid with
  | none => exact hinv
  | some c =>
    dsimp only
    split_ifs with h0 h1 h2
    · exact hinv
    · exact hinv
    · exact hinv
    · exact noDupActive_append s.renders cid rid hinv
        (by simpa [hasActiveForClip] using Bool.eq_false_iff.mpr h2)

/-- `batchStep` also preserves distinctness-irrelevant fields — not
needed; the loop preservation follows directly. -/
theorem noDupActive_batchLoop (maxConc jid : ℕ) :
    ∀ (reqs : List (ℕ × ℕ)) (s : RSys), NoDupActive s.renders →
      NoDupActive (batchLoop maxConc jid reqs s).renders := by
  intro reqs
  induction reqs with
  | nil => intro s hinv; exact hinv
  | cons p rest ih =>
    intro s hinv
    exact ih _ (noDupActive_batchStep maxConc jid p.1 p.2 s hinv)

/-- The check-and-start phase of `process_render` preserves the
per-clip duplicate invariant. -/
theorem noDupActive_procStart (rid : ℕ) (s : RSys) (hok : RidsOk s)
    (hinv : NoDupActive s.renders) :
    NoDupActive (procStart rid s).renders := by
  unfold procStart
  cases hfr : findRender s rid with
  | none => exact hinv
  | some r =>
    dsimp only
    split_ifs with hq
    · exact hinv
    · cases hfc : findClip s r.clipId with
      | none =>
        exact noDupActive_updateRender s rid r _ hok hfr (fun x => rfl)
          (fun _ => by simp [rActive, not_not.mp hq]) hinv
      | some c =>
        dsimp only
        cases hfj : findJob s c.jobId with
        | none =>
          exact noDupActive_updateRender s rid r _ hok hfr (fun x => rfl)
            (fun _ => by simp [rActive, not_not.mp hq]) hinv
        | some j =>
          dsimp only
          split_ifs with hset hfile <;>
            exact noDupActive_updateRender s rid r _ hok hfr (fun x => rfl)
              (fun _ => by simp [rActive, not_not.mp hq]) hinv

/-- The completion phase of `process_render` preserves the per-clip
duplicate invariant. -/
theorem noDupActive_procEnd (rid : ℕ) (ok : Bool) (s : RSys)
    (hok : RidsOk s) (hinv : NoDupActive s.renders) :
    NoDupActive (procEnd rid ok s).renders := by
  unfold procEnd
  cases hfr : findRender s rid with
  | none => exact hinv
  | some r =>
    dsimp only
    split_ifs with hq hout hsucc
    · exact hinv
    · exact noDupActive_updateRender s rid r _ hok hfr (fun x => rfl)
        (fun _ => by simp [rActive, not_not.mp hq]) hinv
    · show NoDupActive ({ updateRender s rid _ with outFiles := _ }).renders
      exact noDupActive_updateRender s rid r _ hok hfr (fun x => rfl)
        (fun _ => by simp [rActive, not_not.mp hq]) hinv
    · exact noDupActive_updateRender s rid r _ hok hfr (fun x => rfl)
        (fun _ => by simp [rActive, not_not.mp hq]) hinv

/-- C3 (amended): `handle_create_render`, `handle_batch_render` and
both phases of `process_render` preserve "at most one active Render per
clipId".  (`handle_retry_render` does not re-check the guard and can
re-activate a failed render alongside an active one for the same clip;
see the counterexample.) -/
theorem render_duplicate_guard (maxConc cid rid jid prid : ℕ)
    (reqs : List (ℕ × ℕ)) (ok : Bool) (s : RSys)
    (hinv : NoDupActive s.renders) (hok : RidsOk s) :
    NoDupActive (createRender maxConc cid rid s).1.renders ∧
      NoDupActive (batchRender maxConc jid reqs s).1.renders ∧
      NoDupActive (procStart prid s).renders ∧
      NoDupActive (procEnd prid ok s).renders := by
  refine ⟨noDupActive_createRender maxConc cid rid s hinv, ?_,
    noDupActive_procStart prid s hok hinv,
    noDupActive_procEnd prid ok s hok hinv⟩
  unfold batchRender
  cases hfj : findJob s jid with
  | none => exact hinv
  | some j => exact noDupActive_batchLoop maxConc jid reqs s hinv

/-- Witness for C3 at the concrete state `capFullSys`. -/
theorem render_duplicate_guard_witness :
    NoDupActive (createRender 2 3 31 capFullSys).1.renders ∧
      NoDupActive (batchRender 2 1 [(3, 32)] capFullSys).1.renders ∧
      NoDupActive (procStart 11 capFullSys).renders ∧
      NoDupActive (procEnd 11 true capFullSys).renders :=
  render_duplicate_guard 2 3 31 1 11 [(3, 32)] true capFullSys
    (by unfold NoDupActive; decide) (by unfold RidsOk; decide)

/-- C4 (amended): at submission time `handle_create_render` checks only
clip existence, the concurrency cap and the duplicate-render guard; the
job-exists and raw-video-artifact preconditions are not checked there.
When they are violated (here: the raw file is gone), the submission
still succeeds and creates a queued Render record, and it is the
processor (`process_render`) that then marks the record `failed`. -/
theorem createRender_defers_job_checks (maxConc cid rid : ℕ) (s : RSys)
    (c : ClipRec) (j : JobRow)
    (hclip : findClip s cid = some c)
    (hcap : activeCount s < maxConc)
    (hdup : hasActiveForClip s cid = false)
    (hfresh : findRender s rid = none)
    (hjob : findJob s c.jobId = some j)
    (hset : j.rawPathSet = true)
    (hmiss : j.jid ∉ s.rawFiles) :
    (createRender maxConc cid rid s).2 = Except.ok () ∧
      (createRender maxConc cid rid s).1.renders =
        s.renders ++ [freshRender cid rid] ∧
      procStart rid (createRender maxConc cid rid s).1 =
        updateRender (createRender maxConc cid rid s).1 rid (fun r0 =>
          { r0 with status := RStatus.failed,
                    error := some "Raw video file not found".toList }) := by
  have hcr : createRender maxConc cid rid s =
      ({ cleanupOldRenders s cid with
          renders := s.renders ++ [freshRender cid rid] }, Except.ok ()) := by
    unfold createRender
    rw [hclip]
    dsimp only
    rw [if_neg (not_le.mpr hcap), if_neg (by simp [hdup])]
    rfl
  refine ⟨by rw [hcr], by rw [hcr], ?_⟩
  rw [hcr]
  dsimp only
  unfold procStart
  have hfind1 : findRender { cleanupOldRenders s cid with
      renders := s.renders ++ [freshRender cid rid] } rid =
      some (freshRender cid rid) := by
    unfold findRender at hfresh ⊢
    dsimp only
    rw [List.find?_append]
    rw [hfresh]
    simp [freshRender]
  rw [hfind1]
  dsimp only
  rw [if_neg (by simp [freshRender])]
  have hclip1 : findClip { cleanupOldRenders s cid with
      renders := s.renders ++ [freshRender cid rid] }
      (freshRender cid rid).clipId = some c := by
    unfold findClip at hclip ⊢
    simpa [freshRender, cleanupOldRenders] using hclip
  rw [hclip1]
  dsimp only
  have hjob1 : findJob { cleanupOldRenders s cid with
      renders := s.renders ++ [freshRender cid rid] } c.jobId = some j := by
    unfold findJob at hjob ⊢
    simpa [cleanupOldRenders] using hjob
  rw [hjob1]
  dsimp only
  rw [if_neg (by simp [hset]), if_pos (by simpa [cleanupOldRenders] using hmiss)]

/-- Witness for C4: in `c4Init` (clip 1, job raw path set but raw file
missing, empty render table) the submission succeeds, appends the
queued record, and processing marks it failed. -/
theorem createRender_defers_job_checks_witness :
    (createRender 2 1 301 c4Init).2 = Except.ok () ∧
      (createRender 2 1 301 c4Init).1.renders =
        c4Init.renders ++ [freshRender 1 301] ∧
      procStart 301 (createRender 2 1 301 c4Init).1 =
        updateRender (createRender 2 1 301 c4Init).1 301 (fun r0 =>
          { r0 with status := RStatus.failed,
                    error := some "Raw video file not found".toList }) :=
  createRender_defers_job_checks 2 1 301 c4Init
    { cid := 1, jobId := 1 } { jid := 1, rawPathSet := true }
    (by decide) (by decide) (by decide) (by decide) (by decide) (by decide)
    (by decide)

/-- If the transcript artifact and some clips already exist, the
post-acquire phases of `process_job` go straight to `ready` without
invoking any collaborator beyond those already recorded. -/
theorem jobTranscribePhase_resume (j : JobRec) (env : JobEnv)
    (calls : List Collab) (htr : env.transcriptExists = true)
    (hclips : 0 < env.existingClipCount) :
    (jobTranscribePhase j env calls).1.status = RStatus.ready ∧
      (jobTranscribePhase j env calls).2 = calls := by
  unfold jobTranscribePhase
  rw [htr]
  dsimp only
  unfold jobHighlightPhase
  rw [if_pos hclips]
  exact ⟨rfl, rfl⟩

/-- C5: for a job whose raw-video artifact, transcript artifact and
Clips already exist, `process_job` reaches `status = ready` without
invoking any external collaborator (Downloader, Transcriber, Highlight
Engine, Thumbnailer). -/
theorem process_job_idempotent_resume (j : JobRec) (env : JobEnv)
    (hraw : env.rawFileExists = true)
    (htr : env.transcriptExists = true)
    (hclips : 0 < env.existingClipCount)
    (hup : j.sourceType = SourceType.upload → j.rawPath.isSome = true) :
    (process_job j env).1.status = RStatus.ready ∧
      (process_job j env).2 = [] := by
  unfold process_job
  cases hst : j.sourceType with
  | youtube =>
    dsimp only
    rw [hraw]
    exact jobTranscribePhase_resume _ env [] htr hclips
  | upload =>
    dsimp only
    obtain ⟨p, hp⟩ := Option.isSome_iff_exists.mp (hup hst)
    rw [hp]
    dsimp only
    rw [hraw]
    exact jobTranscribePhase_resume _ env [] htr hclips

/-- Witness for C5: a YouTube job whose artifacts and clips all exist
resumes straight to `ready` with no collaborator calls. -/
theorem process_job_idempotent_resume_witness :
    (process_job w5Job w5Env).1.status = RStatus.ready ∧
      (process_job w5Job w5Env).2 = [] :=
  process_job_idempotent_resume w5Job w5Env (by decide) (by decide)
    (by decide) (by decide)

/-- C8: for an existing job, `handle_retry_job` succeeds exactly when
the job's status is `failed` or `ready`; for every other status it
returns `InvalidStateError` and returns the database unchanged — no
job field is mutated and nothing is resubmitted to the scheduler. -/
theorem handle_retry_job_gate (jid : ℕ) (db : JobsDb) (j : JobRec)
    (hfind : findJobRow db jid = some j) :
    ((handle_retry_job jid db).2 = Except.ok () ↔
      (j.status = RStatus.failed ∨ j.status = RStatus.ready)) ∧
      (¬(j.status = RStatus.failed ∨ j.status = RStatus.ready) →
        handle_retry_job jid db = (db, Except.error JobErr.invalidState)) := by
  unfold handle_retry_job
  rw [hfind]
  dsimp only
  split_ifs with h
  · refine ⟨⟨fun _ => h, fun _ => rfl⟩, ?_⟩
    intro hcon
    exact absurd h hcon
  · refine ⟨⟨fun habs => habs.elim, fun hst => absurd hst h⟩, ?_⟩
    intro _
    rfl

/-- Witness for C8: retrying the `processing` job 7 of `w8Db` yields
`InvalidStateError` with the database unchanged. -/
theorem handle_retry_job_gate_witness :
    handle_retry_job 7 w8Db = (w8Db, Except.error JobErr.invalidState) :=
  (handle_retry_job_gate 7 w8Db w8Row (by decide)).2 (by decide)

end MainTheorems

end Clipper
